import Mathlib

/-!
Verification of `squeez.py` (the Squeez subfolder-compaction tool).

The tool processes a target directory: for each immediate subfolder it
creates a `<name>.zip` archive next to the subfolder (`zip_folder`),
verifies the archive (`verify_zip_integrity`: the zip format's own
integrity test plus a file-entry count check), and only then recursively
deletes the subfolder.  A batch driver (`squeez_subfolders`) iterates over
all subfolders, skipping any whose archive already exists, keeping
`success_count` / `fail_count` tallies and printing them at the end.

The embedding below models the filesystem state at the target-directory
level (`DirState`), zip archives as lists of entries (`ZipFile`), and the
I/O faults the Python code catches with `try`/`except`:
  * an exception raised while writing the archive (`WriteResult.err`,
    possibly leaving an incomplete file on disk),
  * failure of the best-effort `os.remove` cleanup of a bad archive
    (`FolderEnv.cleanupRemoveOk`; the code wraps this removal in
    `try ... except: pass`),
  * failure of `shutil.rmtree` on the source folder (`FolderEnv.rmtreeOk`).
The archive carried by `WriteResult.ok` is the file as it is subsequently
read back from disk, so storage-level corruption (which the verification
step exists to detect) is representable.
-/

namespace Squeez

/-- One entry of a zip archive: its arcname and whether the zip format's
integrity test (`ZipFile.testzip` in Python) flags it as corrupted. -/
structure ZipEntry where
  name : String
  isCorrupt : Bool
deriving DecidableEq, Repr

/-- A zip archive: the list of its entries, in order. -/
structure ZipFile where
  entries : List ZipEntry
deriving DecidableEq, Repr

/-- A subfolder of the target directory: its name and the relative paths
of all files inside it, recursively (what `os.walk` visits). -/
structure Folder where
  name : String
  files : List String
deriving DecidableEq, Repr

/-- `count_files_in_folder`: total number of files in the folder,
subfolders included (the `os.walk` loop summing `len(files)`). -/
def count_files_in_folder (folder : Folder) : Nat :=
  folder.files.length

/-- Python's `zipf.testzip()`: the first corrupted entry, if any. -/
def testzip (z : ZipFile) : Option ZipEntry :=
  z.entries.find? (fun e => e.isCorrupt)

/-- Python's `name.endswith('/')`: the last character of the name is the
directory-marker slash. -/
def endsWithSlash (s : String) : Bool :=
  s.data.getLast? == some '/'

/-- Number of file entries of the archive, directory markers (names
ending in `/`) excluded: `len([n for n in zipf.namelist() if not n.endswith('/')])`. -/
def nonDirEntryCount (z : ZipFile) : Nat :=
  (z.entries.filter (fun e => !(endsWithSlash e.name))).length

/-- `verify_zip_integrity`: the archive is valid iff `testzip` finds no
corrupted entry and the non-directory entry count equals
`expected_file_count`. -/
def verify_zip_integrity (z : ZipFile) (expected_file_count : Nat) : Bool :=
  match testzip z with
  | some _ => false
  | none => nonDirEntryCount z == expected_file_count

/-- The archive `zip_folder` writes when no I/O fault occurs: one entry
per file, arcname `os.path.relpath(file, folder.parent)` which is
`<folder name>/<relative path>`, nothing corrupted. -/
def intendedZip (folder : Folder) : ZipFile :=
  ⟨folder.files.map (fun p => ⟨folder.name ++ "/" ++ p, false⟩)⟩

/-- Result of the archive-writing phase of `zip_folder`:
`ok z` means the `with zipfile.ZipFile(...)` block completed and `z` is
the archive as read back from disk; `err leftover` means an exception was
raised mid-write, with `leftover` the incomplete file left on disk
(`none` if nothing had been created yet). -/
inductive WriteResult where
  | ok (z : ZipFile)
  | err (leftover : Option ZipFile)
deriving DecidableEq, Repr

/-- The I/O faults one per-folder iteration can encounter. -/
structure FolderEnv where
  write : WriteResult
  /-- Whether the best-effort `os.remove` of a bad or incomplete archive
  succeeds (the code attempts it and swallows any exception). -/
  cleanupRemoveOk : Bool
  /-- Whether `shutil.rmtree(folder)` succeeds. -/
  rmtreeOk : Bool
deriving DecidableEq, Repr

/-- `zip_folder`: returns the Python function's boolean result together
with the file (if any) left at `output_path` on disk afterwards.
Mirrors the source: empty-folder guard first (before any file is
created); then the write, whose exception handler removes any leftover
file best-effort; then `verify_zip_integrity`, removing the archive on
verification failure (a failure of that removal is re-caught by the
outer handler, which retries it best-effort). -/
def zip_folder (folder : Folder) (env : FolderEnv) : Bool × Option ZipFile :=
  let original_file_count := count_files_in_folder folder
  if original_file_count = 0 then
    (false, none)
  else
    match env.write with
    | WriteResult.err leftover =>
      if env.cleanupRemoveOk then (false, none) else (false, leftover)
    | WriteResult.ok z =>
      if verify_zip_integrity z original_file_count then
        (true, some z)
      else
        if env.cleanupRemoveOk then (false, none) else (false, some z)

/-- The target directory: its subfolders and the zip files sitting in it
(name, content). -/
structure DirState where
  folders : List Folder
  zips : List (String × ZipFile)
deriving DecidableEq, Repr

/-- `get_subfolders`: all immediate subfolders of the target directory. -/
def get_subfolders (s : DirState) : List Folder :=
  s.folders

/-- The content of the zip file named `zip_name` in the target directory,
if present. -/
def zipLookup (s : DirState) (zip_name : String) : Option ZipFile :=
  (s.zips.find? (fun p => p.1 == zip_name)).map (fun p => p.2)

/-- `zip_path.exists()` for a zip name at the target level. -/
def zipExists (s : DirState) (zip_name : String) : Bool :=
  (zipLookup s zip_name).isSome

/-- A new zip file appears in the target directory. -/
def addZip (s : DirState) (zip_name : String) (z : ZipFile) : DirState :=
  { s with zips := s.zips ++ [(zip_name, z)] }

/-- `shutil.rmtree` of the subfolder named `n`. -/
def removeFolder (s : DirState) (n : String) : DirState :=
  { s with folders := s.folders.filter (fun f => !(f.name == n)) }

/-- Whether a subfolder named `n` is present. -/
def folderIn (s : DirState) (n : String) : Bool :=
  s.folders.any (fun f => f.name == n)

/-- The per-folder result of one iteration of the `squeez_subfolders`
loop, i.e. which branch of the loop body was taken (each branch prints a
distinctive message in the source):
`skipped` — the zip already exists, nothing done, no counter touched;
`dryRunOk n` — dry-run, only the file count `n` reported;
`success` — archive created, verified, folder deleted;
`deleteFailed` — archive created and verified but `shutil.rmtree`
failed: the zip is kept and the user is told to delete the folder
manually;
`zipMissing` — `zip_folder` reported success but the file is absent;
`zipFailed` — compression failed or verification did not pass. -/
inductive Outcome where
  | skipped
  | dryRunOk (file_count : Nat)
  | success
  | deleteFailed
  | zipMissing
  | zipFailed
deriving DecidableEq, Repr

/-- The loop body of `squeez_subfolders` for one subfolder: the new
directory state and the iteration's outcome. -/
def process_folder (s : DirState) (folder : Folder) (env : FolderEnv)
    (dry_run : Bool) : DirState × Outcome :=
  let zip_name := folder.name ++ ".zip"
  if zipExists s zip_name then
    (s, Outcome.skipped)
  else if dry_run then
    (s, Outcome.dryRunOk (count_files_in_folder folder))
  else
    let r := zip_folder folder env
    let s1 := match r.2 with
      | some z => addZip s zip_name z
      | none => s
    if r.1 then
      if r.2.isSome then
        if env.rmtreeOk then
          (removeFolder s1 folder.name, Outcome.success)
        else
          (s1, Outcome.deleteFailed)
      else
        (s1, Outcome.zipMissing)
    else
      (s1, Outcome.zipFailed)

/-- The `for` loop of `squeez_subfolders` over the subfolder list (fixed
at entry), with one fault environment per subfolder. -/
def run_loop (dry_run : Bool) :
    DirState → List (Folder × FolderEnv) → DirState × List Outcome
  | s, [] => (s, [])
  | s, (f, env) :: rest =>
    let r := process_folder s f env dry_run
    let rr := run_loop dry_run r.1 rest
    (rr.1, r.2 :: rr.2)

/-- How one iteration's branch moves the `(success_count, fail_count)`
pair, read off the `+= 1` statements of the source. -/
def outcomeDelta : Outcome → Nat × Nat
  | Outcome.skipped => (0, 0)
  | Outcome.dryRunOk _ => (1, 0)
  | Outcome.success => (1, 0)
  | Outcome.deleteFailed => (0, 1)
  | Outcome.zipMissing => (0, 1)
  | Outcome.zipFailed => (0, 1)

/-- The final `(success_count, fail_count)` pair accumulated over the
loop. -/
def tally : List Outcome → Nat × Nat
  | [] => (0, 0)
  | o :: os =>
    ((outcomeDelta o).1 + (tally os).1, (outcomeDelta o).2 + (tally os).2)

/-- The messages of the closing statistics block of `squeez_subfolders`
(and its early-exit notices). `tallySkipped` is in the vocabulary so that
a skipped-count line can be talked about; see `summaryLines` for what the
source actually prints. -/
inductive Msg where
  | noSubfolders
  | belowMinCount
  | tallySuccess (n : Nat)
  | tallyFail (n : Nat)
  | tallySkipped (n : Nat)
deriving DecidableEq, Repr

/-- The closing statistics block: the success line always, the failure
line only when `fail_count > 0`, and nothing else. -/
def summaryLines (t : Nat × Nat) : List Msg :=
  [Msg.tallySuccess t.1] ++ (if 0 < t.2 then [Msg.tallyFail t.2] else [])

/-- `squeez_subfolders`: the whole batch on an existing target directory.
Returns the final directory state, the per-subfolder outcomes, and the
closing messages. -/
def squeez_subfolders (s : DirState) (envs : List FolderEnv)
    (min_count : Nat) (dry_run : Bool) :
    DirState × List Outcome × List Msg :=
  let subfolders := get_subfolders s
  if subfolders.length = 0 then
    (s, [], [Msg.noSubfolders])
  else if subfolders.length < min_count then
    (s, [], [Msg.belowMinCount])
  else
    let r := run_loop dry_run s (subfolders.zip envs)
    (r.1, r.2, summaryLines (tally r.2))

/-! ### Concrete fixtures

Small concrete directory states used to instantiate the theorems below:
`folderA` has three files, `folderB` is empty, `folderC` already has its
archive `C.zip` in the target directory. -/

def folderA : Folder := ⟨"A", ["a1", "a2", "a3"]⟩

def folderB : Folder := ⟨"B", []⟩

def folderC : Folder := ⟨"C", ["c1"]⟩

def zipC : ZipFile := ⟨[⟨"C/c1", false⟩]⟩

/-- An archive flagged as corrupted by the format's integrity test. -/
def zipBad : ZipFile := ⟨[⟨"A/a1", true⟩]⟩

/-- Fault-free environment for `folderA`. -/
def envA : FolderEnv := ⟨WriteResult.ok (intendedZip folderA), true, true⟩

/-- Environment in which the archive write raises, leaves an incomplete
file behind, and the best-effort cleanup removal also fails. -/
def envWriteFail : FolderEnv := ⟨WriteResult.err (some zipBad), false, true⟩

/-- Environment in which everything succeeds except `shutil.rmtree`. -/
def envRmtreeFail : FolderEnv := ⟨WriteResult.ok (intendedZip folderA), true, false⟩

/-- A target directory holding only `folderA`, with no zip files. -/
def dirA : DirState := ⟨[folderA], []⟩

/-- The scenario directory of the spec: subfolders `A` (3 files),
`B` (0 files), `C` (1 file) with `C.zip` pre-existing. -/
def dirABC : DirState := ⟨[folderA, folderB, folderC], [("C.zip", zipC)]⟩

/-- A fault-free environment whose write result is irrelevant (used for
iterations that never reach the write). -/
def envNeutral : FolderEnv := ⟨WriteResult.ok ⟨[]⟩, true, true⟩

/-- Fault-free environments for the three subfolders of `dirABC`. -/
def envsABC : List FolderEnv := [envA, envNeutral, envNeutral]

/-! ### Formalised claim statements

These `Prop`-valued definitions transcribe claims that turn out not to
hold of the code exactly as stated, so that a counterexample can refute
them and an amended theorem can be stated alongside. -/

/-- Claim C1 as stated, at one input: after the per-folder compaction of
`folder`, (a) the folder remains and no archive for it exists, or (b) a
valid archive for it exists; moreover every archive for it on disk is
valid, and never are both the archive absent and the folder removed. -/
def folderCompactionDichotomy (s : DirState) (folder : Folder)
    (env : FolderEnv) : Prop :=
  ((folderIn (process_folder s folder env false).1 folder.name = true ∧
      zipLookup (process_folder s folder env false).1 (folder.name ++ ".zip") = none) ∨
    (∃ z, zipLookup (process_folder s folder env false).1 (folder.name ++ ".zip") = some z ∧
      verify_zip_integrity z (count_files_in_folder folder) = true)) ∧
  (∀ z, zipLookup (process_folder s folder env false).1 (folder.name ++ ".zip") = some z →
    verify_zip_integrity z (count_files_in_folder folder) = true) ∧
  ¬ (zipLookup (process_folder s folder env false).1 (folder.name ++ ".zip") = none ∧
      folderIn (process_folder s folder env false).1 folder.name = false)

/-- Claim C3 as stated, at one input: whenever the archive was written
and verified valid but `shutil.rmtree` fails, the iteration is a
succeeded-with-warning result — the archive is kept, the folder
remains, and the result is counted as a success. -/
def deletionWarningCountsAsSuccess (s : DirState) (folder : Folder)
    (env : FolderEnv) : Prop :=
  ∀ z, env.write = WriteResult.ok z →
    verify_zip_integrity z (count_files_in_folder folder) = true →
    env.rmtreeOk = false →
    zipExists s (folder.name ++ ".zip") = false →
    ((outcomeDelta (process_folder s folder env false).2).1 = 1 ∧
      zipLookup (process_folder s folder env false).1 (folder.name ++ ".zip") = some z ∧
      folderIn (process_folder s folder env false).1 folder.name = folderIn s folder.name)

/-- Claim C5 as stated: on `dirABC` with `min_count = 1` and no dry-run,
`A.zip` is created with 3 entries and `A` is deleted; `B` is untouched
and reported failed; `C` and `C.zip` are untouched and `C` is reported
skipped; and the final printed tally shows 1 success, 1 failure and
1 skipped. -/
def scenarioClaim : Prop :=
  zipLookup (squeez_subfolders dirABC envsABC 1 false).1 "A.zip" = some (intendedZip folderA) ∧
  nonDirEntryCount (intendedZip folderA) = 3 ∧
  folderIn (squeez_subfolders dirABC envsABC 1 false).1 "A" = false ∧
  folderIn (squeez_subfolders dirABC envsABC 1 false).1 "B" = true ∧
  zipLookup (squeez_subfolders dirABC envsABC 1 false).1 "B.zip" = none ∧
  folderIn (squeez_subfolders dirABC envsABC 1 false).1 "C" = true ∧
  zipLookup (squeez_subfolders dirABC envsABC 1 false).1 "C.zip" = some zipC ∧
  (squeez_subfolders dirABC envsABC 1 false).2.1 =
    [Outcome.success, Outcome.zipFailed, Outcome.skipped] ∧
  Msg.tallySuccess 1 ∈ (squeez_subfolders dirABC envsABC 1 false).2.2 ∧
  Msg.tallyFail 1 ∈ (squeez_subfolders dirABC envsABC 1 false).2.2 ∧
  Msg.tallySkipped 1 ∈ (squeez_subfolders dirABC envsABC 1 false).2.2

/-! ### Lemmas about the state operations -/

theorem zipLookup_addZip_self (s : DirState) (n : String) (z : ZipFile)
    (h : zipLookup s n = none) : zipLookup (addZip s n z) n = some z := by
  have h' : s.zips.find? (fun p => p.1 == n) = none := by
    simpa [zipLookup, Option.map_eq_none'] using h
  simp [zipLookup, addZip, List.find?_append, h', List.find?]

theorem zipLookup_addZip_isSome (s : DirState) (n m : String) (z : ZipFile)
    (h : (zipLookup s n).isSome = true) :
    zipLookup (addZip s m z) n = zipLookup s n := by
  rcases hf : s.zips.find? (fun p => p.1 == n) with _ | p
  · simp [zipLookup, hf] at h
  · simp [zipLookup, addZip, List.find?_append, hf]

theorem zipLookup_removeFolder (s : DirState) (m n : String) :
    zipLookup (removeFolder s m) n = zipLookup s n := rfl

theorem folderIn_addZip (s : DirState) (m : String) (z : ZipFile) (n : String) :
    folderIn (addZip s m z) n = folderIn s n := rfl

theorem folderIn_removeFolder_self (s : DirState) (n : String) :
    folderIn (removeFolder s n) n = false := by
  rw [folderIn, List.any_eq_false]
  intro f hf
  rw [removeFolder] at hf
  simp only [List.mem_filter] at hf
  simpa using hf.2

theorem folderIn_removeFolder_ne (s : DirState) (m n : String) (h : n ≠ m) :
    folderIn (removeFolder s m) n = folderIn s n := by
  unfold folderIn removeFolder
  induction s.folders with
  | nil => rfl
  | cons f fs ih =>
    by_cases hm : (f.name == m) = true
    · have hfm : f.name = m := by simpa using hm
      have hn : (f.name == n) = false := by
        rw [hfm]
        exact beq_eq_false_iff_ne.mpr (Ne.symm h)
      simp [List.filter_cons, hm, hn, ih]
    · have hm' : (f.name == m) = false := by simpa using hm
      simp [List.filter_cons, hm', ih]

/-- Inversion for `zip_folder`: a `True` result means the write
completed, the archive read back verified against the original file
count, the folder was non-empty, and the archive is on disk. -/
theorem zip_folder_true_inv (folder : Folder) (env : FolderEnv)
    (h : (zip_folder folder env).1 = true) :
    ∃ z, env.write = WriteResult.ok z ∧
      verify_zip_integrity z (count_files_in_folder folder) = true ∧
      (zip_folder folder env).2 = some z ∧
      count_files_in_folder folder ≠ 0 := by
  by_cases h0 : count_files_in_folder folder = 0
  · simp [zip_folder, h0] at h
  · rcases hw : env.write with z | leftover
    · by_cases hv : verify_zip_integrity z (count_files_in_folder folder) = true
      · exact ⟨z, rfl, hv, by simp [zip_folder, h0, hw, hv], h0⟩
      · by_cases hc : env.cleanupRemoveOk = true
        · simp [zip_folder, h0, hw, hv, hc] at h
        · simp [zip_folder, h0, hw, hv, hc] at h
    · by_cases hc : env.cleanupRemoveOk = true
      · simp [zip_folder, h0, hw, hc] at h
      · simp [zip_folder, h0, hw, hc] at h

/-- The three possible directory states after one iteration of the loop
body: unchanged, one zip added, or one zip added and the folder removed
(the last only when the folder's archive did not already exist). -/
theorem process_folder_state_cases (s : DirState) (f : Folder)
    (env : FolderEnv) (dry : Bool) :
    (process_folder s f env dry).1 = s ∨
    (∃ z, (process_folder s f env dry).1 = addZip s (f.name ++ ".zip") z) ∨
    (∃ z, zipExists s (f.name ++ ".zip") = false ∧
      (process_folder s f env dry).1 =
        removeFolder (addZip s (f.name ++ ".zip") z) f.name) := by
  by_cases hz : zipExists s (f.name ++ ".zip") = true
  · left; simp [process_folder, hz]
  · have hz' : zipExists s (f.name ++ ".zip") = false := by simpa using hz
    cases dry with
    | true => left; simp [process_folder, hz']
    | false =>
      rcases hr : zip_folder f env with ⟨ok, res⟩
      cases res with
      | none => left; cases ok <;> simp [process_folder, hz', hr]
      | some z =>
        cases ok with
        | false => right; left; exact ⟨z, by simp [process_folder, hz', hr]⟩
        | true =>
          cases henv : env.rmtreeOk with
          | true =>
            right; right
            exact ⟨z, hz', by simp [process_folder, hz', hr, henv]⟩
          | false => right; left; exact ⟨z, by simp [process_folder, hz', hr, henv]⟩

theorem process_folder_skip (s : DirState) (f : Folder) (env : FolderEnv)
    (dry : Bool) (hz : zipExists s (f.name ++ ".zip") = true) :
    process_folder s f env dry = (s, Outcome.skipped) := by
  simp [process_folder, hz]

theorem process_folder_zipLookup_mono (s : DirState) (f : Folder)
    (env : FolderEnv) (dry : Bool) (n : String)
    (h : (zipLookup s n).isSome = true) :
    zipLookup (process_folder s f env dry).1 n = zipLookup s n := by
  rcases process_folder_state_cases s f env dry with h1 | ⟨z, h1⟩ | ⟨z, _, h1⟩
  · rw [h1]
  · rw [h1, zipLookup_addZip_isSome _ _ _ _ h]
  · rw [h1, zipLookup_removeFolder, zipLookup_addZip_isSome _ _ _ _ h]

theorem process_folder_zipExists_mono (s : DirState) (f : Folder)
    (env : FolderEnv) (dry : Bool) (n : String) (h : zipExists s n = true) :
    zipExists (process_folder s f env dry).1 n = true := by
  have h' : (zipLookup s n).isSome = true := h
  rw [zipExists, process_folder_zipLookup_mono s f env dry n h']
  exact h'

theorem process_folder_folderIn_pres (s : DirState) (f : Folder)
    (env : FolderEnv) (dry : Bool) (n : String)
    (hzip : zipExists s (n ++ ".zip") = true) (hin : folderIn s n = true) :
    folderIn (process_folder s f env dry).1 n = true := by
  rcases process_folder_state_cases s f env dry with h1 | ⟨z, h1⟩ | ⟨z, hz, h1⟩
  · rw [h1]; exact hin
  · rw [h1, folderIn_addZip]; exact hin
  · have hne : n ≠ f.name := by
      intro e
      rw [e] at hzip
      rw [hzip] at hz
      cases hz
    rw [h1, folderIn_removeFolder_ne _ _ _ hne, folderIn_addZip]
    exact hin

/-! ### Lemmas about the batch loop -/

theorem run_loop_fst_zipLookup_mono (dry : Bool)
    (L : List (Folder × FolderEnv)) : ∀ (s : DirState) (n : String),
    (zipLookup s n).isSome = true →
    zipLookup (run_loop dry s L).1 n = zipLookup s n := by
  induction L with
  | nil => intro s n _; rfl
  | cons p rest ih =>
    intro s n h
    rcases p with ⟨f, env⟩
    have h2 : (zipLookup (process_folder s f env dry).1 n).isSome = true := by
      rw [process_folder_zipLookup_mono s f env dry n h]; exact h
    show zipLookup (run_loop dry (process_folder s f env dry).1 rest).1 n = _
    rw [ih _ _ h2, process_folder_zipLookup_mono s f env dry n h]

theorem run_loop_fst_folderIn_pres (dry : Bool)
    (L : List (Folder × FolderEnv)) : ∀ (s : DirState) (n : String),
    zipExists s (n ++ ".zip") = true → folderIn s n = true →
    folderIn (run_loop dry s L).1 n = true := by
  induction L with
  | nil => intro s n _ hin; exact hin
  | cons p rest ih =>
    intro s n hz hin
    rcases p with ⟨f, env⟩
    show folderIn (run_loop dry (process_folder s f env dry).1 rest).1 n = true
    exact ih _ _ (process_folder_zipExists_mono s f env dry _ hz)
      (process_folder_folderIn_pres s f env dry n hz hin)

theorem run_loop_snd_length (dry : Bool) (L : List (Folder × FolderEnv)) :
    ∀ s : DirState, ((run_loop dry s L).2).length = L.length := by
  induction L with
  | nil => intro s; rfl
  | cons p rest ih =>
    intro s
    rcases p with ⟨f, env⟩
    show ((process_folder s f env dry).2 ::
      (run_loop dry (process_folder s f env dry).1 rest).2).length = _
    simp [ih]

theorem run_loop_skip_at (dry : Bool) (L : List (Folder × FolderEnv)) :
    ∀ (s : DirState) (i : Nat) (f : Folder) (env : FolderEnv),
    L[i]? = some (f, env) → zipExists s (f.name ++ ".zip") = true →
    (run_loop dry s L).2[i]? = some Outcome.skipped := by
  induction L with
  | nil => intro s i f env hL _; simp at hL
  | cons p rest ih =>
    intro s i f env hL hz
    rcases p with ⟨g, envg⟩
    cases i with
    | zero =>
      rw [List.getElem?_cons_zero, Option.some.injEq] at hL
      injection hL with h1 h2
      subst h1
      subst h2
      show ((process_folder s g envg dry).2 ::
        (run_loop dry (process_folder s g envg dry).1 rest).2)[0]? = _
      rw [process_folder_skip s g envg dry hz]
      simp
    | succ i =>
      rw [List.getElem?_cons_succ] at hL
      have hz' : zipExists (process_folder s g envg dry).1 (f.name ++ ".zip") = true :=
        process_folder_zipExists_mono _ _ _ _ _ hz
      show ((process_folder s g envg dry).2 ::
        (run_loop dry (process_folder s g envg dry).1 rest).2)[i + 1]? = _
      rw [List.getElem?_cons_succ]
      exact ih _ _ _ _ hL hz'

/-! ### Helper lemmas for the per-folder dichotomy -/

/-- If the loop body left the directory unchanged and the folder was
present without an archive, the dichotomy holds through its first
disjunct. -/
theorem dichotomy_of_unchanged (s : DirState) (folder : Folder)
    (env : FolderEnv) (hin : folderIn s folder.name = true)
    (hnozip : zipLookup s (folder.name ++ ".zip") = none)
    (hpf : (process_folder s folder env false).1 = s) :
    folderCompactionDichotomy s folder env := by
  unfold folderCompactionDichotomy
  rw [hpf]
  refine ⟨Or.inl ⟨hin, hnozip⟩, ?_, ?_⟩
  · intro z hz
    rw [hnozip] at hz
    cases hz
  · rintro ⟨-, hf⟩
    rw [hin] at hf
    cases hf

/-- If a valid archive for the folder is on disk afterwards, the
dichotomy holds through its second disjunct. -/
theorem dichotomy_of_valid (s : DirState) (folder : Folder)
    (env : FolderEnv) (z : ZipFile)
    (hv : verify_zip_integrity z (count_files_in_folder folder) = true)
    (hlook : zipLookup (process_folder s folder env false).1
      (folder.name ++ ".zip") = some z) :
    folderCompactionDichotomy s folder env := by
  unfold folderCompactionDichotomy
  refine ⟨Or.inr ⟨z, hlook, hv⟩, ?_, ?_⟩
  · intro z' hz'
    rw [hlook, Option.some.injEq] at hz'
    exact hz' ▸ hv
  · rintro ⟨hnone, -⟩
    rw [hlook] at hnone
    cases hnone

/-! ### The claims -/

/-- Claim C1, counterexample: the dichotomy fails as universally stated.
If the archive write raises after part of the file is on disk and the
best-effort cleanup removal also fails (the code swallows that failure
with a bare `except: pass`), an invalid incomplete archive remains on
disk next to the preserved folder. -/
theorem per_folder_dichotomy_not_universal :
    ¬ folderCompactionDichotomy dirA folderA envWriteFail := by
  intro h
  have h2 := h.2.1 zipBad (by decide)
  exact absurd h2 (by decide)

/-- Claim C1 (amended): for a non-empty folder with no pre-existing
archive, provided the best-effort cleanup removal of a bad or incomplete
archive succeeds, the per-folder compaction ends either with the folder
on disk and no archive, or with a valid archive on disk; every archive
it leaves for the folder is valid, and never are both the archive absent
and the folder removed. -/
theorem per_folder_dichotomy_of_cleanup_ok (s : DirState) (folder : Folder)
    (env : FolderEnv)
    (hne : count_files_in_folder folder ≠ 0)
    (hin : folderIn s folder.name = true)
    (hnozip : zipLookup s (folder.name ++ ".zip") = none)
    (hclean : env.cleanupRemoveOk = true) :
    folderCompactionDichotomy s folder env := by
  have hzex : zipExists s (folder.name ++ ".zip") = false := by
    simp [zipExists, hnozip]
  rcases hw : env.write with z | leftover
  · by_cases hv : verify_zip_integrity z (count_files_in_folder folder) = true
    · have hzf : zip_folder folder env = (true, some z) := by
        simp [zip_folder, hne, hw, hv]
      cases hrm : env.rmtreeOk with
      | true =>
        have hpf : process_folder s folder env false =
            (removeFolder (addZip s (folder.name ++ ".zip") z) folder.name,
              Outcome.success) := by
          simp [process_folder, hzex, hzf, hrm]
        refine dichotomy_of_valid s folder env z hv ?_
        rw [hpf, zipLookup_removeFolder]
        exact zipLookup_addZip_self s _ z hnozip
      | false =>
        have hpf : process_folder s folder env false =
            (addZip s (folder.name ++ ".zip") z, Outcome.deleteFailed) := by
          simp [process_folder, hzex, hzf, hrm]
        refine dichotomy_of_valid s folder env z hv ?_
        rw [hpf]
        exact zipLookup_addZip_self s _ z hnozip
    · have hzf : zip_folder folder env = (false, none) := by
        simp [zip_folder, hne, hw, hv, hclean]
      exact dichotomy_of_unchanged s folder env hin hnozip
        (by simp [process_folder, hzex, hzf])
  · have hzf : zip_folder folder env = (false, none) := by
      simp [zip_folder, hne, hw, hclean]
    exact dichotomy_of_unchanged s folder env hin hnozip
      (by simp [process_folder, hzex, hzf])

/-- Claim C1, witness: the amended dichotomy at the concrete fault-free
state `dirA`. -/
theorem per_folder_dichotomy_instance :
    count_files_in_folder folderA ≠ 0 ∧
    folderIn dirA folderA.name = true ∧
    zipLookup dirA (folderA.name ++ ".zip") = none ∧
    envA.cleanupRemoveOk = true ∧
    folderCompactionDichotomy dirA folderA envA :=
  ⟨by decide, by decide, by decide, by decide,
    per_folder_dichotomy_of_cleanup_ok dirA folderA envA
      (by decide) (by decide) (by decide) (by decide)⟩

/-- Claim C2: `verify_zip_integrity` accepts exactly when the archive
format's integrity test flags no entry and the non-directory entry count
equals the expected file count; so any count mismatch is rejected even
with all entries intact. -/
theorem verify_zip_integrity_iff (z : ZipFile) (expected : Nat) :
    verify_zip_integrity z expected = true ↔
      ((∀ e ∈ z.entries, e.isCorrupt = false) ∧ nonDirEntryCount z = expected) := by
  rcases hf : z.entries.find? (fun e => e.isCorrupt) with _ | e
  · have hv : verify_zip_integrity z expected = (nonDirEntryCount z == expected) := by
      unfold verify_zip_integrity testzip
      rw [hf]
    rw [hv, beq_iff_eq]
    rw [List.find?_eq_none] at hf
    constructor
    · intro h
      exact ⟨fun e he => by simpa using hf e he, h⟩
    · rintro ⟨-, h⟩
      exact h
  · have hv : verify_zip_integrity z expected = false := by
      unfold verify_zip_integrity testzip
      rw [hf]
    rw [hv]
    constructor
    · intro h
      cases h
    · rintro ⟨hall, -⟩
      have h1 := hall e (List.mem_of_find?_eq_some hf)
      have h2 : e.isCorrupt = true := by simpa using List.find?_some hf
      rw [h1] at h2
      cases h2

/-- Claim C2, witness: an intact archive whose entry count differs from
the expected count is rejected, by the characterisation. -/
theorem verify_zip_integrity_iff_instance :
    verify_zip_integrity (intendedZip folderA) 5 = false := by
  cases hv : verify_zip_integrity (intendedZip folderA) 5 with
  | false => rfl
  | true =>
    have h := (verify_zip_integrity_iff (intendedZip folderA) 5).mp hv
    exact absurd h.2 (by decide)

/-- Claim C3, counterexample: when deletion of the source folder fails
after a verified archive was produced, the iteration is not counted as a
success — the code increments `fail_count`, not `success_count`. -/
theorem deletion_failure_not_success :
    ¬ deletionWarningCountsAsSuccess dirA folderA envRmtreeFail := by
  intro h
  have h2 := h (intendedZip folderA) rfl (by decide) rfl (by decide)
  exact absurd h2.1 (by decide)

/-- Claim C3 (amended): when the archive was written and verified valid
but `shutil.rmtree` fails, the iteration ends in the `deleteFailed`
branch — the archive is kept on disk, the subfolder list is unchanged,
the user is warned to delete the folder manually — but the iteration is
tallied as a failure (`fail_count += 1`), not as a success. -/
theorem deletion_failure_reported_failed (s : DirState) (folder : Folder)
    (env : FolderEnv) (z : ZipFile)
    (hw : env.write = WriteResult.ok z)
    (hv : verify_zip_integrity z (count_files_in_folder folder) = true)
    (hrm : env.rmtreeOk = false)
    (hnozip : zipLookup s (folder.name ++ ".zip") = none)
    (hne : count_files_in_folder folder ≠ 0) :
    (process_folder s folder env false).2 = Outcome.deleteFailed ∧
    zipLookup (process_folder s folder env false).1 (folder.name ++ ".zip") = some z ∧
    (process_folder s folder env false).1.folders = s.folders ∧
    outcomeDelta (process_folder s folder env false).2 = (0, 1) := by
  have hzex : zipExists s (folder.name ++ ".zip") = false := by
    simp [zipExists, hnozip]
  have hzf : zip_folder folder env = (true, some z) := by
    simp [zip_folder, hne, hw, hv]
  have hpf : process_folder s folder env false =
      (addZip s (folder.name ++ ".zip") z, Outcome.deleteFailed) := by
    simp [process_folder, hzex, hzf, hrm]
  rw [hpf]
  exact ⟨rfl, zipLookup_addZip_self s _ z hnozip, rfl, rfl⟩

/-- Claim C3, witness: the amended statement at the concrete state
`dirA` with an environment in which only `shutil.rmtree` fails. -/
theorem deletion_failure_reported_failed_instance :
    envRmtreeFail.write = WriteResult.ok (intendedZip folderA) ∧
    verify_zip_integrity (intendedZip folderA) (count_files_in_folder folderA) = true ∧
    envRmtreeFail.rmtreeOk = false ∧
    zipLookup dirA (folderA.name ++ ".zip") = none ∧
    count_files_in_folder folderA ≠ 0 ∧
    (process_folder dirA folderA envRmtreeFail false).2 = Outcome.deleteFailed :=
  ⟨rfl, by decide, rfl, by decide, by decide,
    (deletion_failure_reported_failed dirA folderA envRmtreeFail (intendedZip folderA)
      rfl (by decide) rfl (by decide) (by decide)).1⟩

/-- Claim C4: the source folder is removed by the loop body only if
`zip_folder` succeeded — the write completed, `shutil.rmtree` ran, and a
verified-valid archive for the folder is on disk. -/
theorem folder_deleted_only_after_verify (s : DirState) (folder : Folder)
    (env : FolderEnv) (dry : Bool)
    (hpre : folderIn s folder.name = true)
    (hpost : folderIn (process_folder s folder env dry).1 folder.name = false) :
    (zip_folder folder env).1 = true ∧ env.rmtreeOk = true ∧
    ∃ z, (zip_folder folder env).2 = some z ∧
      verify_zip_integrity z (count_files_in_folder folder) = true ∧
      zipLookup (process_folder s folder env dry).1 (folder.name ++ ".zip") = some z := by
  by_cases hz : zipExists s (folder.name ++ ".zip") = true
  · rw [process_folder_skip s folder env dry hz] at hpost
    rw [hpre] at hpost
    cases hpost
  · have hz' : zipExists s (folder.name ++ ".zip") = false := by simpa using hz
    have hnozip : zipLookup s (folder.name ++ ".zip") = none := by
      rcases hq : zipLookup s (folder.name ++ ".zip") with _ | z
      · rfl
      · simp [zipExists, hq] at hz'
    cases dry with
    | true =>
      have hpf : process_folder s folder env true =
          (s, Outcome.dryRunOk (count_files_in_folder folder)) := by
        simp [process_folder, hz']
      rw [hpf] at hpost
      rw [hpre] at hpost
      cases hpost
    | false =>
      rcases hr : zip_folder folder env with ⟨ok, res⟩
      cases ok with
      | false =>
        cases res with
        | none =>
          have hpf : process_folder s folder env false = (s, Outcome.zipFailed) := by
            simp [process_folder, hz', hr]
          rw [hpf] at hpost
          rw [hpre] at hpost
          cases hpost
        | some z =>
          have hpf : process_folder s folder env false =
              (addZip s (folder.name ++ ".zip") z, Outcome.zipFailed) := by
            simp [process_folder, hz', hr]
          rw [hpf, folderIn_addZip, hpre] at hpost
          cases hpost
      | true =>
        obtain ⟨z, hwz, hv, hres, hne⟩ :=
          zip_folder_true_inv folder env (by rw [hr])
        rw [hr] at hres
        cases henv : env.rmtreeOk with
        | false =>
          have hpf : process_folder s folder env false =
              (addZip s (folder.name ++ ".zip") z, Outcome.deleteFailed) := by
            simp [process_folder, hz', hr, hres, henv]
          rw [hpf, folderIn_addZip, hpre] at hpost
          cases hpost
        | true =>
          have hpf : process_folder s folder env false =
              (removeFolder (addZip s (folder.name ++ ".zip") z) folder.name,
                Outcome.success) := by
            simp [process_folder, hz', hr, hres, henv]
          refine ⟨rfl, rfl, z, hres, hv, ?_⟩
          rw [hpf, zipLookup_removeFolder]
          exact zipLookup_addZip_self s _ z hnozip

/-- Claim C4, witness: a fault-free compaction of `folderA` in `dirA` —
the folder goes away and the theorem yields the verified archive. -/
theorem folder_deleted_only_after_verify_instance :
    folderIn dirA folderA.name = true ∧
    folderIn (process_folder dirA folderA envA false).1 folderA.name = false ∧
    ((zip_folder folderA envA).1 = true ∧ envA.rmtreeOk = true ∧
      ∃ z, (zip_folder folderA envA).2 = some z ∧
        verify_zip_integrity z (count_files_in_folder folderA) = true ∧
        zipLookup (process_folder dirA folderA envA false).1
          (folderA.name ++ ".zip") = some z) :=
  ⟨by decide, by decide,
    folder_deleted_only_after_verify dirA folderA envA false (by decide) (by decide)⟩

/-- Claim C5, counterexample: the scenario claim fails as stated,
because the closing statistics block never contains a skipped-count
line — the code prints only the success and failure counts (the skip is
reported per folder, during its iteration). -/
theorem scenario_no_skipped_tally : ¬ scenarioClaim := by
  intro h
  exact absurd h.2.2.2.2.2.2.2.2.2.2 (by decide)

/-- Claim C5 (amended): on `dirABC` (`A` with 3 files, `B` empty, `C`
with `C.zip` pre-existing), a non-dry run with `min_count = 1` creates
`A.zip` with 3 entries and deletes `A`; leaves `B` untouched and
reported failed; leaves `C` and `C.zip` untouched and reported skipped;
and the closing statistics block shows 1 success and 1 failure — the
skip is reported only during `C`'s own iteration, not in the final
tally. -/
theorem scenario_behavior :
    zipLookup (squeez_subfolders dirABC envsABC 1 false).1 "A.zip" =
      some (intendedZip folderA) ∧
    nonDirEntryCount (intendedZip folderA) = 3 ∧
    folderIn (squeez_subfolders dirABC envsABC 1 false).1 "A" = false ∧
    folderIn (squeez_subfolders dirABC envsABC 1 false).1 "B" = true ∧
    zipLookup (squeez_subfolders dirABC envsABC 1 false).1 "B.zip" = none ∧
    folderIn (squeez_subfolders dirABC envsABC 1 false).1 "C" = true ∧
    zipLookup (squeez_subfolders dirABC envsABC 1 false).1 "C.zip" = some zipC ∧
    (squeez_subfolders dirABC envsABC 1 false).2.1 =
      [Outcome.success, Outcome.zipFailed, Outcome.skipped] ∧
    (squeez_subfolders dirABC envsABC 1 false).2.2 =
      [Msg.tallySuccess 1, Msg.tallyFail 1] := by
  decide

/-- Dry-run never changes the directory state, iteration by iteration. -/
theorem run_loop_dry_fst (L : List (Folder × FolderEnv)) :
    ∀ s : DirState, (run_loop true s L).1 = s := by
  induction L with
  | nil => intro s; rfl
  | cons p rest ih =>
    intro s
    rcases p with ⟨f, env⟩
    have hstep : (process_folder s f env true).1 = s := by
      by_cases hz : zipExists s (f.name ++ ".zip") = true
      · rw [process_folder_skip s f env true hz]
      · have hz' : zipExists s (f.name ++ ".zip") = false := by simpa using hz
        simp [process_folder, hz']
    show (run_loop true (process_folder s f env true).1 rest).1 = s
    rw [hstep, ih]

/-- In a dry run each iteration is a skip or a count report. -/
theorem run_loop_dry_outcomes (L : List (Folder × FolderEnv)) :
    ∀ s : DirState, ∀ o ∈ (run_loop true s L).2,
      o = Outcome.skipped ∨ ∃ n, o = Outcome.dryRunOk n := by
  induction L with
  | nil => intro s o ho; cases ho
  | cons p rest ih =>
    intro s o ho
    rcases p with ⟨f, env⟩
    have hmem : o = (process_folder s f env true).2 ∨
        o ∈ (run_loop true (process_folder s f env true).1 rest).2 := by
      simpa [run_loop] using ho
    rcases hmem with h | h
    · by_cases hz : zipExists s (f.name ++ ".zip") = true
      · left
        rw [h, process_folder_skip s f env true hz]
      · right
        have hz' : zipExists s (f.name ++ ".zip") = false := by simpa using hz
        refine ⟨count_files_in_folder f, ?_⟩
        rw [h]
        simp [process_folder, hz']
    · exact ih _ o h

/-- Claim C6: a dry run leaves the directory state exactly as it was —
no file is created, modified or deleted — and every reported outcome is
a skip or a file-count report. -/
theorem dry_run_preserves_state (s : DirState) (envs : List FolderEnv)
    (min_count : Nat) :
    (squeez_subfolders s envs min_count true).1 = s ∧
    ∀ o ∈ (squeez_subfolders s envs min_count true).2.1,
      o = Outcome.skipped ∨ ∃ n, o = Outcome.dryRunOk n := by
  unfold squeez_subfolders
  by_cases h0 : (get_subfolders s).length = 0
  · simp only [h0, if_true]
    exact ⟨by trivial, fun o ho => by cases ho⟩
  · by_cases h1 : (get_subfolders s).length < min_count
    · simp only [h0, h1, if_false, if_true]
      exact ⟨by trivial, fun o ho => by cases ho⟩
    · simp only [h0, h1, if_false]
      exact ⟨run_loop_dry_fst _ s, run_loop_dry_outcomes _ s⟩

/-- Claim C6, witness: dry run on the concrete scenario directory. -/
theorem dry_run_preserves_state_instance :
    (squeez_subfolders dirABC envsABC 1 true).1 = dirABC :=
  (dry_run_preserves_state dirABC envsABC 1).1

/-- Claim C7: a folder with zero files is rejected by the empty-folder
guard before any file is created: `zip_folder` returns `False` leaving
nothing on disk, and the iteration reports a failure with the directory
state unchanged. -/
theorem empty_folder_fails (s : DirState) (folder : Folder) (env : FolderEnv)
    (h0 : count_files_in_folder folder = 0)
    (hz : zipExists s (folder.name ++ ".zip") = false) :
    zip_folder folder env = (false, none) ∧
    process_folder s folder env false = (s, Outcome.zipFailed) := by
  have hzf : zip_folder folder env = (false, none) := by simp [zip_folder, h0]
  exact ⟨hzf, by simp [process_folder, hz, hzf]⟩

/-- Claim C7, witness: the empty folder `B` of the scenario. -/
theorem empty_folder_fails_instance :
    count_files_in_folder folderB = 0 ∧
    zipExists dirABC (folderB.name ++ ".zip") = false ∧
    process_folder dirABC folderB envNeutral false = (dirABC, Outcome.zipFailed) :=
  ⟨by decide, by decide,
    (empty_folder_fails dirABC folderB envNeutral (by decide) (by decide)).2⟩

/-- Claim C8: any subfolder whose conventionally named archive already
exists when the batch starts is skipped — its iteration reports
`skipped`, its archive is untouched at the end of the whole run, and its
folder is never removed; hence a second run over an already-compacted
directory rewrites and deletes nothing for those folders. -/
theorem existing_archive_skipped (dry : Bool) (L : List (Folder × FolderEnv))
    (s : DirState) (i : Nat) (f : Folder) (env : FolderEnv)
    (hL : L[i]? = some (f, env))
    (hz : zipExists s (f.name ++ ".zip") = true) :
    (run_loop dry s L).2[i]? = some Outcome.skipped ∧
    zipLookup (run_loop dry s L).1 (f.name ++ ".zip") =
      zipLookup s (f.name ++ ".zip") ∧
    (folderIn s f.name = true → folderIn (run_loop dry s L).1 f.name = true) := by
  refine ⟨run_loop_skip_at dry L s i f env hL hz, ?_, ?_⟩
  · exact run_loop_fst_zipLookup_mono dry L s _ hz
  · intro hin
    exact run_loop_fst_folderIn_pres dry L s _ hz hin

/-- Claim C8, witness: in the scenario batch, `C` (third subfolder, with
`C.zip` pre-existing) is skipped. -/
theorem existing_archive_skipped_instance :
    ((get_subfolders dirABC).zip envsABC)[2]? = some (folderC, envNeutral) ∧
    zipExists dirABC (folderC.name ++ ".zip") = true ∧
    (run_loop false dirABC ((get_subfolders dirABC).zip envsABC)).2[2]? =
      some Outcome.skipped :=
  ⟨by decide, by decide,
    (existing_archive_skipped false ((get_subfolders dirABC).zip envsABC)
      dirABC 2 folderC envNeutral (by decide) (by decide)).1⟩

/-- Claim C9: whatever I/O faults the per-folder iterations encounter,
the batch runs to completion — every subfolder yields exactly one
reported outcome (no per-folder error aborts the loop) and the run ends
with the aggregate success/failure statistics block. -/
theorem batch_runs_to_completion (s : DirState) (envs : List FolderEnv)
    (min_count : Nat) (dry : Bool)
    (hne : (get_subfolders s).length ≠ 0)
    (hmin : ¬ (get_subfolders s).length < min_count)
    (hlen : envs.length = (get_subfolders s).length) :
    ((squeez_subfolders s envs min_count dry).2.1).length =
      (get_subfolders s).length ∧
    (squeez_subfolders s envs min_count dry).2.2 =
      summaryLines (tally (squeez_subfolders s envs min_count dry).2.1) := by
  unfold squeez_subfolders
  simp only [hne, hmin, if_false]
  constructor
  · rw [run_loop_snd_length]
    rw [List.length_zip, hlen, min_self]
  · trivial

/-- Claim C9, witness: the scenario batch, in which one iteration fails
(empty `B`), still processes all three subfolders and prints the tally. -/
theorem batch_runs_to_completion_instance :
    (get_subfolders dirABC).length ≠ 0 ∧
    ¬ (get_subfolders dirABC).length < 1 ∧
    envsABC.length = (get_subfolders dirABC).length ∧
    ((squeez_subfolders dirABC envsABC 1 false).2.1).length =
      (get_subfolders dirABC).length :=
  ⟨by decide, by decide, by decide,
    (batch_runs_to_completion dirABC envsABC 1 false
      (by decide) (by decide) (by decide)).1⟩

/-- Summing the per-iteration counter increments: skipped iterations
contribute nothing, every other outcome contributes exactly one, so the
two counters together count the non-skipped outcomes. -/
theorem tally_eq_nonskipped_length (os : List Outcome) :
    (tally os).1 + (tally os).2 =
      (os.filter (fun o => o != Outcome.skipped)).length := by
  induction os with
  | nil => rfl
  | cons o os ih =>
    cases o <;> simp [tally, outcomeDelta, List.filter_cons] <;> omega

/-- Claim C10: in a non-dry-run batch each iteration moves exactly one
of the two counters by one, except a skip which moves neither; hence the
final successes plus failures equal the number of non-skipped
iterations. -/
theorem tally_counts_non_skipped (s : DirState) (L : List (Folder × FolderEnv)) :
    (tally (run_loop false s L).2).1 + (tally (run_loop false s L).2).2 =
      ((run_loop false s L).2.filter (fun o => o != Outcome.skipped)).length ∧
    ∀ o ∈ (run_loop false s L).2,
      (o = Outcome.skipped → outcomeDelta o = (0, 0)) ∧
      (o ≠ Outcome.skipped → (outcomeDelta o).1 + (outcomeDelta o).2 = 1) := by
  refine ⟨tally_eq_nonskipped_length _, ?_⟩
  intro o _
  constructor
  · intro h
    subst h
    rfl
  · intro h
    cases o
    · exact absurd rfl h
    · rfl
    · rfl
    · rfl
    · rfl
    · rfl

/-- Claim C10, witness: the counter law evaluated on the scenario batch
(1 success + 1 failure = 2 non-skipped iterations). -/
theorem tally_counts_non_skipped_instance :
    (tally (run_loop false dirABC ((get_subfolders dirABC).zip envsABC)).2).1 +
      (tally (run_loop false dirABC ((get_subfolders dirABC).zip envsABC)).2).2 =
      (((run_loop false dirABC ((get_subfolders dirABC).zip envsABC)).2).filter
        (fun o => o != Outcome.skipped)).length :=
  (tally_counts_non_skipped dirABC ((get_subfolders dirABC).zip envsABC)).1

end Squeez
